import Mathlib

/-!
# Verification of the music-catalog data model (`app/music/models.py`)

Shallow embedding of the Django models and their validation/persistence
semantics.  Conventions:

* Primary keys are `Nat`; nullable columns are `Option`.
* Years (`SmallIntegerField`) are `Int`.  Django's `IntegerField.full_clean`
  runs both the declared validators and the backend integer-range validators
  (for `SmallIntegerField`: `[-32768, 32767]`); both are embedded.
* `get_current_year` is a callable passed to `MaxValueValidator`; Django
  evaluates a callable `limit_value` at validation time, so the embedding
  threads a `now : Int` (the calendar year at validation time) into every
  validation function.
* `Song.price` is `DecimalField(decimal_places=2, max_digits=4)`; it is
  embedded as an integer number of cents, so the Python comparison
  `value >= 5` becomes `cents ≥ 500` and `max_digits=4` becomes
  `|cents| < 10000`.
* `Song.duration` (`DurationField`) is an integer number of microseconds.
* `created`/`last_modified` have `auto_now_add`/`auto_now` and are excluded
  from validation, so they are not part of the record.
* `full_clean` collects error messages (`clean_fields`, then `clean()`,
  then `validate_unique`/`validate_constraints`); `ValidatedModel.save`
  writes only when that list is empty, mirroring
  `self.full_clean(); super().save(...)`.
* `ForeignKey.validate` (the referenced row must exist) is embedded for the
  required references — `Musician.author` and the
  `RelationshipAuthorMusician` keys; Django skips the check for `None`
  values of nullable references, and every theorem below exercises the
  nullable references of `Song` and `Profile` as `None`, so no existence
  check is modelled for those (nor is the `URLField` regex of
  `Author.website`, orthogonal to every rule proved here).
-/

/-- Python truthiness of an optional integer: `None` and `0` are falsy. -/
def intTruthy : Option Int → Bool
  | none => false
  | some v => v != 0

/-- `MinValueValidator(limit)`: error when `value < limit`. -/
def minValueErrors (limit v : Int) : List String :=
  if v < limit then ["Ensure this value is greater than or equal to " ++ toString limit ++ "."]
  else []

/-- `MaxValueValidator(limit)`: error when `value > limit`.  For the year
fields `limit` is `get_current_year`, evaluated at validation time. -/
def maxValueErrors (limit v : Int) : List String :=
  if v > limit then ["Ensure this value is less than or equal to " ++ toString limit ++ "."]
  else []

/-- Backend integer-range validation for a `SmallIntegerField`
(all core Django backends use `[-32768, 32767]`). -/
def smallIntRangeErrors (v : Int) : List String :=
  minValueErrors (-32768) v ++ maxValueErrors 32767 v

/-- `clean_fields` on a nullable `SmallIntegerField` declared with
`validators=[MinValueValidator(1000), MaxValueValidator(get_current_year)]`:
skipped when `None`, otherwise the declared validators plus the backend
range validators run. -/
def yearFieldErrors (now : Int) : Option Int → List String
  | none => []
  | some v => minValueErrors 1000 v ++ maxValueErrors now v ++ smallIntRangeErrors v

/-- `clean_fields` on a nullable `SmallIntegerField` with no declared
validators (`RelationshipAuthorMusician.start` / `.end`): only the backend
range validators run. -/
def optSmallIntErrors : Option Int → List String
  | none => []
  | some v => smallIntRangeErrors v

/-- `clean_fields` on a required `CharField(max_length=n)`: empty values fail
the blank check, and `MaxLengthValidator(n)` bounds the length above. -/
def charFieldErrors (maxLength : Nat) (s : String) : List String :=
  (if s = "" then ["This field cannot be blank."] else []) ++
  (if s.length > maxLength then ["Ensure this value has at most " ++ toString maxLength ++ " characters."] else [])

/-- `clean_fields` on a nullable/blankable `CharField(max_length=n)`:
skipped when `None`, otherwise only the max-length validator runs. -/
def optCharFieldErrors (maxLength : Nat) : Option String → List String
  | none => []
  | some s => if s.length > maxLength then ["Ensure this value has at most " ++ toString maxLength ++ " characters."] else []

/-- `Field.validate` on a field with `choices`: a non-empty value must be one
of the declared choice keys. -/
def choiceErrors (choices : List String) (v : String) : List String :=
  if choices.contains v then [] else ["Value " ++ v ++ " is not a valid choice."]

/-- `ForeignKey.validate` (run by `full_clean` → `clean_fields` on a
non-null reference): the referenced row must exist in the related table,
otherwise a "... instance with id ... does not exist." error is raised. -/
def fkErrors (relatedIds : List Nat) (v : Nat) : List String :=
  if relatedIds.contains v then []
  else ["Instance with id " ++ toString v ++ " does not exist."]

/-- `def less_than_five(value)` — raises `ValidationError` when `value >= 5`
(price in cents: `cents ≥ 500`). -/
def less_than_five (cents : Int) : List String :=
  if 500 ≤ cents then ["The price must be lower than 5 euros."] else []

/-- `DecimalValidator(max_digits=4, decimal_places=2)` on a price in cents:
at most 4 significant digits, i.e. `|cents| ≤ 9999`. -/
def decimalFieldErrors (cents : Int) : List String :=
  if 10000 ≤ cents.natAbs then ["Ensure that there are no more than 4 digits in total."] else []

/-- The `Author` model: `name`, optional `website`, optional
`first_appearance`/`last_appearance` year fields. -/
structure Author where
  id : Nat
  name : String
  website : Option String
  first_appearance : Option Int
  last_appearance : Option Int
deriving DecidableEq

/-- `Author.clean`: mirrors the Python guard
`if (self.first_appearance and self.last_appearance and
self.first_appearance > self.last_appearance)`, including Python truthiness
(`None` and `0` are falsy). -/
def Author.clean (a : Author) : List String :=
  if intTruthy a.first_appearance && intTruthy a.last_appearance
      && decide (a.first_appearance.getD 0 > a.last_appearance.getD 0) then
    ["The year of first appearance must be equal or lower to the year of last appearance."]
  else []

/-- `Author.full_clean`: field validation (name `CharField(255)`, website
`URLField` nullable — its regex validation is orthogonal to every rule here
and a well-formed-URL check is not modelled, `None` passes —, the two year
fields) followed by `Author.clean`. -/
def Author.fullClean (now : Int) (a : Author) : List String :=
  charFieldErrors 255 a.name ++
  yearFieldErrors now a.first_appearance ++
  yearFieldErrors now a.last_appearance ++
  Author.clean a

/-- `Musician.INSTRUMENTS` choice keys. -/
def Musician.INSTRUMENTS : List String :=
  ["piano", "eguitar", "cguitar", "aguitar", "ebass", "bass", "drums", "voice",
   "violin", "harp", "handpan", "tambourine", "sax", "trumpet", "trombone",
   "flute", "clarinet", "ukulele"]

/-- The `Musician` model: `name`, 2-char `nationality`, `instrument` choice,
required foreign key `author` (`on_delete=CASCADE`).  The many-to-many
`authors` relation lives in the `RelationshipAuthorMusician` table. -/
structure Musician where
  id : Nat
  name : String
  nationality : String
  instrument : String
  author : Nat
deriving DecidableEq

/-- The `Album` model: `title`, required `year_of_release` with the same
year validators as `Author`'s fields, optional `produced_by`. -/
structure Album where
  id : Nat
  title : String
  year_of_release : Int
  produced_by : Option String
deriving DecidableEq

/-- `Album.full_clean`. -/
def Album.fullClean (now : Int) (al : Album) : List String :=
  charFieldErrors 255 al.title ++
  yearFieldErrors now (some al.year_of_release) ++
  optCharFieldErrors 255 al.produced_by

/-- `Song.STYLES` choice keys. -/
def Song.STYLES : List String :=
  ["Indie", "Pop", "Rock", "Funky", "Reggaeton", "Classic", "Orquestra", "Folk"]

/-- The `Song` model.  `author` is nullable with `on_delete=SET_NULL`;
`album` is nullable with `on_delete=CASCADE`; `price` is in cents;
`created_by`/`last_modified_by` are nullable user references. -/
structure Song where
  id : Nat
  audio : String
  title : String
  author : Option Nat
  album : Option Nat
  duration : Int
  style : Option String
  playbacks : Option Int
  price : Int
  deal_of_the_day : Bool
  created_by : Option Nat
  last_modified_by : Option Nat
deriving DecidableEq

/-- `clean_fields` on `Song.playbacks` (`PositiveIntegerField`,
backend range `[0, 2147483647]`), skipped when `None`. -/
def playbacksErrors : Option Int → List String
  | none => []
  | some v => minValueErrors 0 v ++ maxValueErrors 2147483647 v

/-- Field-level validation of a `Song` (`clean_fields`): required `audio`
file name, `title` `CharField(250)`, `duration` always present, optional
`style` with choices, optional `playbacks`, `price` decimal plus the
`less_than_five` validator. -/
def Song.cleanFields (s : Song) : List String :=
  (if s.audio = "" then ["This field cannot be blank."] else []) ++
  charFieldErrors 250 s.title ++
  (match s.style with
   | none => []
   | some st => choiceErrors Song.STYLES st ++
       (if st.length > 20 then ["Ensure this value has at most 20 characters."] else [])) ++
  playbacksErrors s.playbacks ++
  decimalFieldErrors s.price ++
  less_than_five s.price

/-- The `Profile` model (times kept as strings; `TimeField` parsing is not
relevant to any rule here). -/
structure Profile where
  id : Nat
  user : Nat
  daily_start_time : String
  daily_finish_time : String
  preferred_style : String
  preferred_song : Option Nat
deriving DecidableEq

/-- `Profile.full_clean`: `preferred_style` is `CharField(30)` with
`Song.STYLES` choices. -/
def Profile.fullClean (p : Profile) : List String :=
  charFieldErrors 30 p.preferred_style ++
  choiceErrors Song.STYLES p.preferred_style

/-- The `RelationshipAuthorMusician` join model: `author` and `musician`
foreign keys (both `on_delete=CASCADE`), optional `start`/`end`
`SmallIntegerField`s declared with no validators. -/
structure RelationshipAuthorMusician where
  id : Nat
  author : Nat
  musician : Nat
  start : Option Int
  «end» : Option Int
deriving DecidableEq

/-- The `RelationshipAuthorSong` join model: `author` and `song` foreign
keys, both `on_delete=CASCADE`, no extra attributes. -/
structure RelationshipAuthorSong where
  id : Nat
  author : Nat
  song : Nat
deriving DecidableEq

/-- The database state: one list of rows per table. -/
structure DB where
  authors : List Author
  musicians : List Musician
  albums : List Album
  songs : List Song
  profiles : List Profile
  relAM : List RelationshipAuthorMusician
  relAS : List RelationshipAuthorSong
deriving DecidableEq

/-- The empty database. -/
def DB.empty : DB := ⟨[], [], [], [], [], [], []⟩

/-- `Musician.full_clean`: `name` is `CharField(150)`, `nationality` is
`CharField(2)`, `instrument` is `CharField(25)` with choices, and the
required `author` foreign key must reference an existing `Author` row
(`ForeignKey.validate`). -/
def Musician.fullClean (db : DB) (m : Musician) : List String :=
  charFieldErrors 150 m.name ++
  charFieldErrors 2 m.nationality ++
  charFieldErrors 25 m.instrument ++
  choiceErrors Musician.INSTRUMENTS m.instrument ++
  fkErrors (db.authors.map (·.id)) m.author

/-- `RelationshipAuthorMusician.full_clean`: the model declares no
validators and no `clean`, but `clean_fields` still validates the required
`author` and `musician` foreign keys (the referenced rows must exist) and
applies the backend small-integer range check to `start` and `end`. -/
def RelationshipAuthorMusician.fullClean (db : DB) (r : RelationshipAuthorMusician) :
    List String :=
  fkErrors (db.authors.map (·.id)) r.author ++
  fkErrors (db.musicians.map (·.id)) r.musician ++
  optSmallIntErrors r.start ++ optSmallIntErrors r.«end»

/-- `validate_constraints` for `Song.Meta`'s
`UniqueConstraint(fields=["title", "author", "album", "duration"],
name="unique_song")`.  Mirroring `UniqueConstraint.validate`: if any field
of the tuple is `None` the check is skipped ("A composite constraint
containing NULL value cannot cause a violation since NULL != NULL in SQL");
otherwise an existing row (other than the instance itself) with the same
tuple is a violation.  The database's own unique index has the same
NULLs-are-distinct semantics. -/
def Song.uniqueSongErrors (db : DB) (s : Song) : List String :=
  match s.author, s.album with
  | some _, some _ =>
    if db.songs.any (fun t =>
        t.id != s.id && t.title == s.title && t.author == s.author &&
        t.album == s.album && t.duration == s.duration) then
      ["Constraint unique_song is violated."]
    else []
  | _, _ => []

/-- `Song.full_clean`: `clean_fields`, the (default) `clean`, then
constraint validation against the current database state. -/
def Song.fullClean (db : DB) (s : Song) : List String :=
  Song.cleanFields s ++ Song.uniqueSongErrors db s

/-- `ValidatedModel.save` for `Author`: run `full_clean`; on any error the
write is rejected (the state is returned unchanged together with the
errors), otherwise the row is written. -/
def Author.save (now : Int) (db : DB) (a : Author) : List String × DB :=
  let errs := Author.fullClean now a
  if errs = [] then ([], { db with authors := db.authors ++ [a] }) else (errs, db)

/-- `ValidatedModel.save` for `Musician`. -/
def Musician.save (db : DB) (m : Musician) : List String × DB :=
  let errs := Musician.fullClean db m
  if errs = [] then ([], { db with musicians := db.musicians ++ [m] }) else (errs, db)

/-- `ValidatedModel.save` for `Album`. -/
def Album.save (now : Int) (db : DB) (al : Album) : List String × DB :=
  let errs := Album.fullClean now al
  if errs = [] then ([], { db with albums := db.albums ++ [al] }) else (errs, db)

/-- `ValidatedModel.save` for `Song`. -/
def Song.save (db : DB) (s : Song) : List String × DB :=
  let errs := Song.fullClean db s
  if errs = [] then ([], { db with songs := db.songs ++ [s] }) else (errs, db)

/-- `ValidatedModel.save` for `Profile`. -/
def Profile.save (db : DB) (p : Profile) : List String × DB :=
  let errs := Profile.fullClean p
  if errs = [] then ([], { db with profiles := db.profiles ++ [p] }) else (errs, db)

/-- `ValidatedModel.save` for `RelationshipAuthorMusician`. -/
def RelationshipAuthorMusician.save (db : DB) (r : RelationshipAuthorMusician) :
    List String × DB :=
  let errs := RelationshipAuthorMusician.fullClean db r
  if errs = [] then ([], { db with relAM := db.relAM ++ [r] }) else (errs, db)

/-- `ValidatedModel.save` for `RelationshipAuthorSong` (no validators, no
`clean`: `full_clean` never fails). -/
def RelationshipAuthorSong.save (db : DB) (r : RelationshipAuthorSong) :
    List String × DB :=
  ([], { db with relAS := db.relAS ++ [r] })

/-- `author.delete()`: the deletion collector applies each referencing
foreign key's `on_delete` policy —
`Musician.author` is `CASCADE` (referencing musicians are deleted, and their
own `RelationshipAuthorMusician` rows cascade with them),
`Song.author` is `SET_NULL` (the field is nulled, the song survives),
`RelationshipAuthorMusician.author` and `RelationshipAuthorSong.author`
are `CASCADE`. -/
def DB.deleteAuthor (db : DB) (aid : Nat) : DB :=
  let deadMusicians := (db.musicians.filter (fun m => m.author == aid)).map (·.id)
  { db with
    authors := db.authors.filter (fun a => a.id != aid)
    musicians := db.musicians.filter (fun m => m.author != aid)
    songs := db.songs.map (fun s =>
      if s.author == some aid then { s with author := none } else s)
    relAM := db.relAM.filter (fun r =>
      r.author != aid && !(deadMusicians.contains r.musician))
    relAS := db.relAS.filter (fun r => r.author != aid) }

/-- `album.delete()`: `Song.album` is `CASCADE`, so every song referencing
the album is deleted; the deleted songs' own referencing rows follow their
policies — `RelationshipAuthorSong.song` is `CASCADE`,
`Profile.preferred_song` is `SET_NULL`. -/
def DB.deleteAlbum (db : DB) (alid : Nat) : DB :=
  let deadSongs := (db.songs.filter (fun s => s.album == some alid)).map (·.id)
  { db with
    albums := db.albums.filter (fun al => al.id != alid)
    songs := db.songs.filter (fun s => s.album != some alid)
    relAS := db.relAS.filter (fun r => !(deadSongs.contains r.song))
    profiles := db.profiles.map (fun p =>
      if (p.preferred_song.map deadSongs.contains).getD false then
        { p with preferred_song := none }
      else p) }

/-- `song.authors.add(id1, id2, ...)` on the many-to-many relation through
`RelationshipAuthorSong`: Django inserts a through row for each target id
not already related to the song, skipping ids that already are.  New rows
take fresh primary keys. -/
def DB.songAuthorsAddOne (d : DB) (songId aid : Nat) : DB :=
  if d.relAS.any (fun r => r.song == songId && r.author == aid) then d
  else { d with relAS := d.relAS ++ [{ id := d.relAS.length, author := aid, song := songId }] }

/-- Iterating `songAuthorsAddOne` over the argument list of `add`. -/
def DB.songAuthorsAdd (db : DB) (songId : Nat) (ids : List Nat) : DB :=
  ids.foldl (fun d aid => d.songAuthorsAddOne songId aid) db

/-- `song.authors.all()` read back as the set of related author ids. -/
def DB.songAuthorsAll (db : DB) (songId : Nat) : Finset Nat :=
  ((db.relAS.filter (fun r => r.song == songId)).map (·.author)).toFinset

/-! ## Helper lemmas -/

/-- A one-message error list is empty exactly when its guard is false. -/
theorem ite_singleton_eq_nil {c : Prop} [Decidable c] {s : String} :
    (if c then [s] else []) = [] ↔ ¬c := by
  split <;> simp_all

/-- An `Author` save succeeds exactly when `full_clean` reports no error. -/
theorem author_save_ok_iff (now : Int) (db : DB) (a : Author) :
    (Author.save now db a).1 = [] ↔ Author.fullClean now a = [] := by
  by_cases h : Author.fullClean now a = [] <;> simp [Author.save, h]

/-- A `Musician` save succeeds exactly when `full_clean` reports no error. -/
theorem musician_save_ok_iff (db : DB) (m : Musician) :
    (Musician.save db m).1 = [] ↔ Musician.fullClean db m = [] := by
  by_cases h : Musician.fullClean db m = [] <;> simp [Musician.save, h]

/-- An `Album` save succeeds exactly when `full_clean` reports no error. -/
theorem album_save_ok_iff (now : Int) (db : DB) (al : Album) :
    (Album.save now db al).1 = [] ↔ Album.fullClean now al = [] := by
  by_cases h : Album.fullClean now al = [] <;> simp [Album.save, h]

/-- A `Song` save succeeds exactly when `full_clean` reports no error. -/
theorem song_save_ok_iff (db : DB) (s : Song) :
    (Song.save db s).1 = [] ↔ Song.fullClean db s = [] := by
  by_cases h : Song.fullClean db s = [] <;> simp [Song.save, h]

/-- Year-field validation passes exactly on `[1000, now]`, for any
validation-time year `now` within the storage range. -/
theorem yearFieldErrors_eq_nil {now v : Int} (hnow : now ≤ 32767) :
    yearFieldErrors now (some v) = [] ↔ 1000 ≤ v ∧ v ≤ now := by
  simp only [yearFieldErrors, minValueErrors, maxValueErrors, smallIntRangeErrors,
    List.append_eq_nil, ite_singleton_eq_nil, not_lt]
  omega

/-- Passing year-field validation forces the value into `[1000, now]`. -/
theorem of_yearFieldErrors_eq_nil {now v : Int}
    (h : yearFieldErrors now (some v) = []) : 1000 ≤ v ∧ v ≤ now := by
  simp only [yearFieldErrors, minValueErrors, maxValueErrors, smallIntRangeErrors,
    List.append_eq_nil, ite_singleton_eq_nil, not_lt] at h
  omega

/-! ## Claims -/

/-- C1: for every entity instance, `ValidatedModel.save` runs the full
validation (`full_clean`) before writing; if any rule fails, the write is
rejected — the stored state is returned unchanged and the validation errors
are raised to the caller — and when no rule fails the row is written. -/
theorem c1_validation_gates_every_write :
    (∀ now db a, Author.fullClean now a ≠ [] →
        (Author.save now db a).1 = Author.fullClean now a ∧ (Author.save now db a).2 = db) ∧
    (∀ now db a, Author.fullClean now a = [] →
        Author.save now db a = ([], { db with authors := db.authors ++ [a] })) ∧
    (∀ db m, Musician.fullClean db m ≠ [] →
        (Musician.save db m).1 = Musician.fullClean db m ∧ (Musician.save db m).2 = db) ∧
    (∀ db m, Musician.fullClean db m = [] →
        Musician.save db m = ([], { db with musicians := db.musicians ++ [m] })) ∧
    (∀ now db al, Album.fullClean now al ≠ [] →
        (Album.save now db al).1 = Album.fullClean now al ∧ (Album.save now db al).2 = db) ∧
    (∀ now db al, Album.fullClean now al = [] →
        Album.save now db al = ([], { db with albums := db.albums ++ [al] })) ∧
    (∀ db s, Song.fullClean db s ≠ [] →
        (Song.save db s).1 = Song.fullClean db s ∧ (Song.save db s).2 = db) ∧
    (∀ db s, Song.fullClean db s = [] →
        Song.save db s = ([], { db with songs := db.songs ++ [s] })) ∧
    (∀ db p, Profile.fullClean p ≠ [] →
        (Profile.save db p).1 = Profile.fullClean p ∧ (Profile.save db p).2 = db) ∧
    (∀ db p, Profile.fullClean p = [] →
        Profile.save db p = ([], { db with profiles := db.profiles ++ [p] })) ∧
    (∀ db r, RelationshipAuthorMusician.fullClean db r ≠ [] →
        (RelationshipAuthorMusician.save db r).1 = RelationshipAuthorMusician.fullClean db r ∧
        (RelationshipAuthorMusician.save db r).2 = db) ∧
    (∀ db r, RelationshipAuthorMusician.fullClean db r = [] →
        RelationshipAuthorMusician.save db r = ([], { db with relAM := db.relAM ++ [r] })) := by
  refine ⟨?_, ?_, ?_, ?_, ?_, ?_, ?_, ?_, ?_, ?_, ?_, ?_⟩ <;> intros <;>
    simp_all [Author.save, Musician.save, Album.save, Song.save, Profile.save,
      RelationshipAuthorMusician.save]

/-- Witness for C1: a concrete invalid `Author` (year 5) is rejected with
the validation errors and leaves the empty database unchanged. -/
theorem c1_witness :
    (Author.save 2026 DB.empty
        { id := 0, name := "a", website := none,
          first_appearance := some 5, last_appearance := none }).1 =
      Author.fullClean 2026
        { id := 0, name := "a", website := none,
          first_appearance := some 5, last_appearance := none } ∧
    (Author.save 2026 DB.empty
        { id := 0, name := "a", website := none,
          first_appearance := some 5, last_appearance := none }).2 = DB.empty :=
  c1_validation_gates_every_write.1 2026 DB.empty
    { id := 0, name := "a", website := none,
      first_appearance := some 5, last_appearance := none } (by decide)

/-- C2: for the `Author` appearance years and `Album.year_of_release`,
persisting fails for values `< 1000` or `> now` (the calendar year at
validation time) and succeeds, all other fields being valid, exactly on the
inclusive range `[1000, now]`; since `now` is a parameter of validation
rather than a constant of the schema, the upper bound moves with the
clock. -/
theorem c2_year_bounds (now v : Int) (db : DB) (hnow : now ≤ 32767) :
    (yearFieldErrors now (some v) = [] ↔ 1000 ≤ v ∧ v ≤ now) ∧
    ((Author.save now db
        { id := 0, name := "a", website := none,
          first_appearance := some v, last_appearance := none }).1 = [] ↔
      1000 ≤ v ∧ v ≤ now) ∧
    ((Author.save now db
        { id := 0, name := "a", website := none,
          first_appearance := none, last_appearance := some v }).1 = [] ↔
      1000 ≤ v ∧ v ≤ now) ∧
    ((Album.save now db
        { id := 0, title := "t", year_of_release := v,
          produced_by := none }).1 = [] ↔ 1000 ≤ v ∧ v ≤ now) := by
  refine ⟨yearFieldErrors_eq_nil hnow, ?_, ?_, ?_⟩
  · rw [author_save_ok_iff]
    have hc : charFieldErrors 255 "a" = [] := by decide
    have h0 : yearFieldErrors now none = [] := rfl
    simp [Author.fullClean, Author.clean, intTruthy, hc, h0, yearFieldErrors_eq_nil hnow]
  · rw [author_save_ok_iff]
    have hc : charFieldErrors 255 "a" = [] := by decide
    have h0 : yearFieldErrors now none = [] := rfl
    simp [Author.fullClean, Author.clean, intTruthy, hc, h0, yearFieldErrors_eq_nil hnow]
  · rw [album_save_ok_iff]
    have hc : charFieldErrors 255 "t" = [] := by decide
    simp [Album.fullClean, optCharFieldErrors, hc, yearFieldErrors_eq_nil hnow]

/-- Witness for C2: at validation year 2026, the year 2020 persists and the
year 999 does not. -/
theorem c2_witness :
    ((Author.save 2026 DB.empty
        { id := 0, name := "a", website := none,
          first_appearance := some 2020, last_appearance := none }).1 = []) ∧
    ¬((Author.save 2026 DB.empty
        { id := 0, name := "a", website := none,
          first_appearance := some 999, last_appearance := none }).1 = []) :=
  ⟨(c2_year_bounds 2026 2020 DB.empty (by decide)).2.1.mpr (by decide),
   fun h => by
     have := (c2_year_bounds 2026 999 DB.empty (by decide)).2.1.mp h
     exact absurd this (by decide)⟩

/-- C3: when both appearance years are set, persisting an `Author` with
`first_appearance > last_appearance` always fails (through `Author.clean`
when both years pass the field validators, through a field validator
otherwise), and the ordering rule (`Author.clean`) raises nothing when at
most one of the two years is set. -/
theorem c3_appearance_ordering :
    (∀ now db a f l, a.first_appearance = some f → a.last_appearance = some l →
        l < f → (Author.save now db a).1 ≠ []) ∧
    (∀ a : Author, a.first_appearance = none ∨ a.last_appearance = none →
        Author.clean a = []) := by
  constructor
  · intro now db a f l hf hl hlt
    rw [Ne, author_save_ok_iff, Author.fullClean, hf, hl]
    simp only [List.append_eq_nil]
    rintro ⟨⟨⟨-, hyf⟩, hyl⟩, hclean⟩
    obtain ⟨hf1, hf2⟩ := of_yearFieldErrors_eq_nil hyf
    obtain ⟨hl1, hl2⟩ := of_yearFieldErrors_eq_nil hyl
    rw [Author.clean, hf, hl] at hclean
    simp only [intTruthy, bne_iff_ne, ne_eq, Option.getD_some, gt_iff_lt,
      decide_eq_true_eq, Bool.and_eq_true, ite_singleton_eq_nil, not_and] at hclean
    have := hclean (by omega) (by omega)
    omega
  · intro a h
    rcases h with h | h <;> simp [Author.clean, intTruthy, h]

/-- Witness for C3: an `Author` with `first_appearance = 2000` and
`last_appearance = 1999` is rejected, and the ordering rule is silent when
`last_appearance` is `None`. -/
theorem c3_witness :
    (Author.save 2026 DB.empty
        { id := 0, name := "a", website := none,
          first_appearance := some 2000, last_appearance := some 1999 }).1 ≠ [] ∧
    Author.clean
      { id := 0, name := "a", website := none,
        first_appearance := some 2000, last_appearance := none } = [] :=
  ⟨c3_appearance_ordering.1 2026 DB.empty
      { id := 0, name := "a", website := none,
        first_appearance := some 2000, last_appearance := some 1999 }
      2000 1999 rfl rfl (by decide),
   c3_appearance_ordering.2
      { id := 0, name := "a", website := none,
        first_appearance := some 2000, last_appearance := none }
      (Or.inr rfl)⟩

/-- C4: `less_than_five` raises its descriptive message exactly when the
price is at least 5.00 (500 cents) and accepts every price in
`[0.00, 4.99]`; consequently persisting any `Song` with `price ≥ 5.00`
fails, and a song whose other fields are valid persists with any price in
`[0.00, 4.99]`. -/
theorem c4_price_rule :
    (∀ c : Int, 500 ≤ c →
        less_than_five c = ["The price must be lower than 5 euros."]) ∧
    (∀ c : Int, 0 ≤ c → c ≤ 499 → less_than_five c = []) ∧
    (∀ db s, 500 ≤ s.price → (Song.save db s).1 ≠ []) ∧
    (∀ db c, 0 ≤ c → c ≤ 499 →
        (Song.save db
          { id := 0, audio := "audio/a.mp3", title := "t", author := none,
            album := none, duration := 180, style := none, playbacks := none,
            price := c, deal_of_the_day := false, created_by := none,
            last_modified_by := none }).1 = []) := by
  refine ⟨?_, ?_, ?_, ?_⟩
  · intro c h
    simp [less_than_five, h]
  · intro c h1 h2
    simp only [less_than_five, ite_singleton_eq_nil, not_le]
    omega
  · intro db s h
    rw [Ne, song_save_ok_iff]
    intro hc
    simp only [Song.fullClean, Song.cleanFields, List.append_eq_nil] at hc
    have hltf := hc.1.2
    simp only [less_than_five, ite_singleton_eq_nil, not_le] at hltf
    omega
  · intro db c h1 h2
    rw [song_save_ok_iff]
    have ht : charFieldErrors 250 "t" = [] := by decide
    simp [Song.fullClean, Song.cleanFields, Song.uniqueSongErrors,
      playbacksErrors, decimalFieldErrors, less_than_five, ht,
      ite_singleton_eq_nil]
    omega

/-- Witness for C4: a 5.00 song is rejected, a 4.99 price passes the rule,
and a 4.99 song persists. -/
theorem c4_witness :
    (Song.save DB.empty
        { id := 0, audio := "audio/a.mp3", title := "t", author := none,
          album := none, duration := 180, style := none, playbacks := none,
          price := 500, deal_of_the_day := false, created_by := none,
          last_modified_by := none }).1 ≠ [] ∧
    less_than_five 499 = [] ∧
    (Song.save DB.empty
        { id := 0, audio := "audio/a.mp3", title := "t", author := none,
          album := none, duration := 180, style := none, playbacks := none,
          price := 499, deal_of_the_day := false, created_by := none,
          last_modified_by := none }).1 = [] :=
  ⟨c4_price_rule.2.2.1 DB.empty
      { id := 0, audio := "audio/a.mp3", title := "t", author := none,
        album := none, duration := 180, style := none, playbacks := none,
        price := 500, deal_of_the_day := false, created_by := none,
        last_modified_by := none } (by decide),
   c4_price_rule.2.1 499 (by decide) (by decide),
   c4_price_rule.2.2.2 DB.empty 499 (by decide) (by decide)⟩

/-- A song with NULL `author` and NULL `album` (first copy). -/
def c5SongNullA : Song :=
  { id := 1, audio := "audio/a.mp3", title := "t", author := none,
    album := none, duration := 180, style := none, playbacks := none,
    price := 0, deal_of_the_day := false, created_by := none,
    last_modified_by := none }

/-- A second song identical to `c5SongNullA` on
(title, author, album, duration). -/
def c5SongNullB : Song := { c5SongNullA with id := 2 }

/-- Counterexample to C5 as stated: two `Song` records with identical
(title, author, album, duration) in which author and album are NULL both
persist — the second write also succeeds and both rows end up stored, so
the uniqueness claim fails for tuples containing NULLs. -/
theorem c5_counterexample :
    (Song.save DB.empty c5SongNullA).1 = [] ∧
    (Song.save (Song.save DB.empty c5SongNullA).2 c5SongNullB).1 = [] ∧
    (Song.save (Song.save DB.empty c5SongNullA).2 c5SongNullB).2.songs =
      [c5SongNullA, c5SongNullB] := by
  refine ⟨by decide, by decide, by decide⟩

/-- C5 (amended): the `unique_song` constraint makes the second write fail
for a duplicate (title, author, album, duration) tuple whenever `author`
and `album` are both non-null; tuples containing NULL are exempt
(`UniqueConstraint.validate` skips them and SQL treats NULLs as
distinct). -/
theorem c5_unique_song_nonnull (db : DB) (s1 s2 : Song)
    (hmem : s1 ∈ db.songs) (hid : s1.id ≠ s2.id)
    (ha : s2.author.isSome) (hal : s2.album.isSome)
    (ht : s1.title = s2.title) (hau : s1.author = s2.author)
    (halb : s1.album = s2.album) (hd : s1.duration = s2.duration) :
    (Song.save db s2).1 ≠ [] := by
  rw [Ne, song_save_ok_iff]
  intro hc
  rw [Song.fullClean, List.append_eq_nil] at hc
  obtain ⟨a, ha2⟩ := Option.isSome_iff_exists.mp ha
  obtain ⟨al, hal2⟩ := Option.isSome_iff_exists.mp hal
  have hu := hc.2
  simp only [Song.uniqueSongErrors, ha2, hal2] at hu
  simp at hu
  exact hu s1 hmem hid ht (hau.trans ha2) (halb.trans hal2) hd

/-- Witness for the amended C5: with a song (author 1, album 1) already
stored, a second song with the same (title, author, album, duration) is
rejected. -/
theorem c5_witness :
    (Song.save
        { DB.empty with songs := [{ c5SongNullA with author := some 1, album := some 1 }] }
        { c5SongNullA with id := 2, author := some 1, album := some 1 }).1 ≠ [] :=
  c5_unique_song_nonnull
    { DB.empty with songs := [{ c5SongNullA with author := some 1, album := some 1 }] }
    { c5SongNullA with author := some 1, album := some 1 }
    { c5SongNullA with id := 2, author := some 1, album := some 1 }
    (by decide) (by decide) (by decide) (by decide) rfl rfl rfl rfl

/-- C6: deleting an `Author` keeps every `Song` (same row count), nulling
the `author` field of the songs that referenced it and leaving all other
fields (and all other songs) untouched (`on_delete=SET_NULL`); deleting an
`Album` removes exactly the songs referencing it (`on_delete=CASCADE`). -/
theorem c6_delete_policies :
    (∀ (db : DB) (aid : Nat),
       ((db.deleteAuthor aid).songs).length = db.songs.length ∧
       ∀ s : Song, s ∈ db.songs →
         (s.author = some aid → { s with author := none } ∈ (db.deleteAuthor aid).songs) ∧
         (s.author ≠ some aid → s ∈ (db.deleteAuthor aid).songs)) ∧
    (∀ (db : DB) (alid : Nat) (s : Song), s ∈ db.songs →
       (s.album = some alid → s ∉ (db.deleteAlbum alid).songs) ∧
       (s.album ≠ some alid → s ∈ (db.deleteAlbum alid).songs)) := by
  constructor
  · intro db aid
    refine ⟨by simp [DB.deleteAuthor], ?_⟩
    intro s hs
    constructor
    · intro h
      simp only [DB.deleteAuthor, List.mem_map]
      exact ⟨s, hs, by simp [h]⟩
    · intro h
      simp only [DB.deleteAuthor, List.mem_map]
      exact ⟨s, hs, by simp [h]⟩
  · intro db alid s hs
    constructor
    · intro h
      simp [DB.deleteAlbum, List.mem_filter, h]
    · intro h
      simp [DB.deleteAlbum, List.mem_filter, hs, h]

/-- A song by author 1 on album 7, for exercising the deletion policies. -/
def c6Song : Song :=
  { id := 1, audio := "audio/a.mp3", title := "t", author := some 1,
    album := some 7, duration := 180, style := none, playbacks := none,
    price := 0, deal_of_the_day := false, created_by := none,
    last_modified_by := none }

/-- A database holding only `c6Song`. -/
def c6DB : DB := { DB.empty with songs := [c6Song] }

/-- Witness for C6: deleting author 1 keeps the song (author nulled) and
deleting album 7 removes it. -/
theorem c6_witness :
    ((c6DB.deleteAuthor 1).songs).length = 1 ∧
    { c6Song with author := none } ∈ (c6DB.deleteAuthor 1).songs ∧
    c6Song ∉ (c6DB.deleteAlbum 7).songs :=
  ⟨((c6_delete_policies.1 c6DB 1).1).trans rfl,
   ((c6_delete_policies.1 c6DB 1).2 c6Song (by decide)).1 rfl,
   (c6_delete_policies.2 c6DB 7 c6Song (by decide)).1 rfl⟩

/-- Unfolding `songAuthorsAdd` on an empty id list. -/
theorem songAuthorsAdd_nil (db : DB) (sid : Nat) :
    db.songAuthorsAdd sid [] = db := rfl

/-- Unfolding `songAuthorsAdd` on a non-empty id list. -/
theorem songAuthorsAdd_cons (db : DB) (sid a : Nat) (rest : List Nat) :
    db.songAuthorsAdd sid (a :: rest) =
      (db.songAuthorsAddOne sid a).songAuthorsAdd sid rest := rfl

/-- One `add` step leaves the readback unchanged when the pair is already
related, and inserts the author id otherwise. -/
theorem songAuthorsAddOne_all (db : DB) (sid a : Nat) :
    (db.songAuthorsAddOne sid a).songAuthorsAll sid =
      insert a (db.songAuthorsAll sid) := by
  by_cases hc : db.relAS.any (fun r => r.song == sid && r.author == a) = true
  · have h1 : db.songAuthorsAddOne sid a = db := by
      rw [DB.songAuthorsAddOne, if_pos hc]
    have ha : a ∈ db.songAuthorsAll sid := by
      rw [List.any_eq_true] at hc
      obtain ⟨r, hr, hpr⟩ := hc
      simp only [Bool.and_eq_true, beq_iff_eq] at hpr
      simp only [DB.songAuthorsAll, List.mem_toFinset, List.mem_map]
      exact ⟨r, List.mem_filter.mpr ⟨hr, by simp [hpr.1]⟩, hpr.2⟩
    rw [h1, Finset.insert_eq_self.mpr ha]
  · have h1 : db.songAuthorsAddOne sid a =
        { db with relAS := db.relAS ++ [{ id := db.relAS.length, author := a, song := sid }] } := by
      rw [DB.songAuthorsAddOne, if_neg hc]
    rw [h1]
    simp only [DB.songAuthorsAll, List.filter_append, List.map_append,
      List.toFinset_append]
    have h2 : List.filter (fun r => r.song == sid)
        [({ id := db.relAS.length, author := a, song := sid } : RelationshipAuthorSong)] =
        [{ id := db.relAS.length, author := a, song := sid }] := by
      simp [List.filter]
    rw [h2]
    ext x
    simp [Or.comm]

/-- Adding ids to a song's many-to-many relation yields the union of the
previous readback with the added id set, whatever the list order. -/
theorem songAuthorsAdd_all (sid : Nat) (ids : List Nat) (db : DB) :
    (db.songAuthorsAdd sid ids).songAuthorsAll sid =
      db.songAuthorsAll sid ∪ ids.toFinset := by
  induction ids generalizing db with
  | nil => rw [songAuthorsAdd_nil]; simp
  | cons a rest ih =>
    rw [songAuthorsAdd_cons, ih, songAuthorsAddOne_all, List.toFinset_cons]
    ext x
    simp [Finset.mem_union, Finset.mem_insert]

/-- C7: starting from a song with no related authors, adding a list of
author ids to its many-to-many `authors` relation and reading the relation
back returns exactly the added set of ids, and adding any permutation of
the list yields the same readback (insertion order is irrelevant). -/
theorem c7_m2m_add_readback (db : DB) (sid : Nat) (ids ids2 : List Nat)
    (hempty : db.songAuthorsAll sid = ∅) (hperm : ids2.Perm ids) :
    (db.songAuthorsAdd sid ids).songAuthorsAll sid = ids.toFinset ∧
    (db.songAuthorsAdd sid ids2).songAuthorsAll sid =
      (db.songAuthorsAdd sid ids).songAuthorsAll sid := by
  constructor
  · rw [songAuthorsAdd_all, hempty, Finset.empty_union]
  · rw [songAuthorsAdd_all, songAuthorsAdd_all,
      List.toFinset_eq_of_perm ids2 ids hperm]

/-- Witness for C7, mirroring the query snippet
`song_15.authors.add(30, 40)`: on the empty database the readback is
`{30, 40}` and adding `[40, 30]` gives the same readback. -/
theorem c7_witness :
    (DB.empty.songAuthorsAdd 15 [30, 40]).songAuthorsAll 15 =
      ([30, 40] : List Nat).toFinset ∧
    (DB.empty.songAuthorsAdd 15 [40, 30]).songAuthorsAll 15 =
      (DB.empty.songAuthorsAdd 15 [30, 40]).songAuthorsAll 15 :=
  c7_m2m_add_readback DB.empty 15 [30, 40] [40, 30] rfl (by decide)

/-- An author row with id 1, for resolving foreign keys. -/
def fkAuthor1 : Author :=
  { id := 1, name := "a", website := none, first_appearance := none,
    last_appearance := none }

/-- A musician row with id 1, referencing author 1. -/
def fkMusician1 : Musician :=
  { id := 1, name := "n", nationality := "US", instrument := "piano", author := 1 }

/-- A database holding author 1 and musician 1, so that join-row foreign
keys resolve. -/
def c8DB : DB := { DB.empty with authors := [fkAuthor1], musicians := [fkMusician1] }

/-- Counterexample to C8 as stated: a `RelationshipAuthorMusician` whose
`start` year 5 lies far outside `[1000, current_year]` persists without any
error into a database in which its `author` and `musician` references
resolve — the model declares no validators on `start`/`end`, so the §4.1
year-bound rule is not applied to them. -/
theorem c8_counterexample :
    ((5 : Int) < 1000) ∧
    (RelationshipAuthorMusician.save c8DB
        { id := 1, author := 1, musician := 1, start := some 5, «end» := none }).1 = [] ∧
    (RelationshipAuthorMusician.save c8DB
        { id := 1, author := 1, musician := 1, start := some 5, «end» := none }).2.relAM =
      [{ id := 1, author := 1, musician := 1, start := some 5, «end» := none }] := by
  decide

/-- C8 (amended): persisting a `RelationshipAuthorMusician` never fails on
account of the `[1000, current_year]` year rule — whenever its `author` and
`musician` references resolve and `start`/`end` merely lie inside the
small-integer storage range (in particular for any year below 1000 or
above the current year), the save succeeds and the row is stored. -/
theorem c8_relam_no_year_rule (db : DB) (r : RelationshipAuthorMusician)
    (hfa : (db.authors.map (·.id)).contains r.author = true)
    (hfm : (db.musicians.map (·.id)).contains r.musician = true)
    (hs : ∀ v, r.start = some v → -32768 ≤ v ∧ v ≤ 32767)
    (he : ∀ v, r.«end» = some v → -32768 ≤ v ∧ v ≤ 32767) :
    (RelationshipAuthorMusician.save db r).1 = [] ∧
    (RelationshipAuthorMusician.save db r).2.relAM = db.relAM ++ [r] := by
  have hf1 : fkErrors (db.authors.map (·.id)) r.author = [] := by
    rw [fkErrors, if_pos hfa]
  have hf2 : fkErrors (db.musicians.map (·.id)) r.musician = [] := by
    rw [fkErrors, if_pos hfm]
  have h1 : optSmallIntErrors r.start = [] := by
    cases hv : r.start with
    | none => rfl
    | some v =>
      obtain ⟨ha, hb⟩ := hs v hv
      simp only [optSmallIntErrors, smallIntRangeErrors, minValueErrors,
        maxValueErrors, List.append_eq_nil, ite_singleton_eq_nil, not_lt]
      omega
  have h2 : optSmallIntErrors r.«end» = [] := by
    cases hv : r.«end» with
    | none => rfl
    | some v =>
      obtain ⟨ha, hb⟩ := he v hv
      simp only [optSmallIntErrors, smallIntRangeErrors, minValueErrors,
        maxValueErrors, List.append_eq_nil, ite_singleton_eq_nil, not_lt]
      omega
  constructor <;>
    simp [RelationshipAuthorMusician.save, RelationshipAuthorMusician.fullClean,
      hf1, hf2, h1, h2]

/-- Witness for the amended C8: with resolving references, the
out-of-year-range `start` 5 and `end` -30000 both persist. -/
theorem c8_witness :
    (RelationshipAuthorMusician.save c8DB
        { id := 1, author := 1, musician := 1, start := some 5, «end» := some (-30000) }).1 = [] ∧
    (RelationshipAuthorMusician.save c8DB
        { id := 1, author := 1, musician := 1, start := some 5, «end» := some (-30000) }).2.relAM =
      c8DB.relAM ++ [{ id := 1, author := 1, musician := 1, start := some 5, «end» := some (-30000) }] :=
  c8_relam_no_year_rule c8DB
    { id := 1, author := 1, musician := 1, start := some 5, «end» := some (-30000) }
    (by decide) (by decide)
    (by intro v hv; cases hv; constructor <;> decide)
    (by intro v hv; cases hv; constructor <;> decide)

/-- A database holding just an author with id 1, so that a musician
referencing author 1 resolves. -/
def c9DB : DB :=
  { DB.empty with
    authors := [{ id := 1, name := "a", website := none,
                  first_appearance := none, last_appearance := none }] }

/-- Counterexample to C9 as stated: a `Musician` whose nationality is the
single character `"U"` — shorter than 2 characters — persists without any
error into a database in which its `author` reference resolves, because
`CharField(max_length=2)` only bounds the length above. -/
theorem c9_counterexample :
    ("U".length = 1) ∧
    (Musician.save c9DB
        { id := 1, name := "n", nationality := "U", instrument := "piano", author := 1 }).1 = [] ∧
    (Musician.save c9DB
        { id := 1, name := "n", nationality := "U", instrument := "piano", author := 1 }).2.musicians =
      [{ id := 1, name := "n", nationality := "U", instrument := "piano", author := 1 }] := by
  decide

/-- C9 (amended): `Musician.nationality` is validated to be at most 2
characters and non-blank: persisting fails when it is longer than 2
characters or empty, while any musician with a non-empty nationality of at
most 2 characters, otherwise valid fields and a resolving `author`
reference persists — so 1-character codes are accepted. -/
theorem c9_nationality_max_two (db : DB) (m : Musician) :
    (2 < m.nationality.length → (Musician.save db m).1 ≠ []) ∧
    (m.nationality = "" → (Musician.save db m).1 ≠ []) ∧
    (m.name ≠ "" → m.name.length ≤ 150 → m.nationality ≠ "" →
      m.nationality.length ≤ 2 → m.instrument ∈ Musician.INSTRUMENTS →
      (db.authors.map (·.id)).contains m.author = true →
      (Musician.save db m).1 = []) := by
  refine ⟨?_, ?_, ?_⟩
  · intro h
    rw [Ne, musician_save_ok_iff]
    intro hc
    simp only [Musician.fullClean, charFieldErrors, List.append_eq_nil,
      ite_singleton_eq_nil, not_lt] at hc
    omega
  · intro h
    rw [Ne, musician_save_ok_iff]
    intro hc
    simp only [Musician.fullClean, charFieldErrors, List.append_eq_nil,
      ite_singleton_eq_nil] at hc
    tauto
  · intro h1 h2 h3 h4 h5 h6
    rw [musician_save_ok_iff, Musician.fullClean]
    have hn : charFieldErrors 150 m.name = [] := by
      simp only [charFieldErrors, List.append_eq_nil, ite_singleton_eq_nil]
      exact ⟨h1, by omega⟩
    have hnat : charFieldErrors 2 m.nationality = [] := by
      simp only [charFieldErrors, List.append_eq_nil, ite_singleton_eq_nil]
      exact ⟨h3, by omega⟩
    have hi : charFieldErrors 25 m.instrument = [] ∧
        choiceErrors Musician.INSTRUMENTS m.instrument = [] := by
      simp only [Musician.INSTRUMENTS, List.mem_cons, List.not_mem_nil,
        or_false] at h5
      rcases h5 with h|h|h|h|h|h|h|h|h|h|h|h|h|h|h|h|h|h <;> rw [h] <;>
        exact ⟨by decide, by decide⟩
    have hfk : fkErrors (db.authors.map (·.id)) m.author = [] := by
      rw [fkErrors, if_pos h6]
    rw [hn, hnat, hi.1, hi.2, hfk]
    rfl

/-- Witness for the amended C9: a 3-character nationality is rejected and a
1-character nationality persists when the author reference resolves. -/
theorem c9_witness :
    (Musician.save c9DB
        { id := 1, name := "n", nationality := "USA", instrument := "piano", author := 1 }).1 ≠ [] ∧
    (Musician.save c9DB
        { id := 2, name := "n", nationality := "D", instrument := "drums", author := 1 }).1 = [] :=
  ⟨(c9_nationality_max_two c9DB
      { id := 1, name := "n", nationality := "USA", instrument := "piano", author := 1 }).1
      (by decide),
   (c9_nationality_max_two c9DB
      { id := 2, name := "n", nationality := "D", instrument := "drums", author := 1 }).2.2
      (by decide) (by decide) (by decide) (by decide) (by decide) (by decide)⟩

/-- C10: deleting an `Author` deletes every `Musician` whose single
`author` field references it (`on_delete=CASCADE`), in contrast with the
set-null policy of `Song.author` for the same referenced entity — the
songs table keeps its row count; musicians referencing other authors
survive. -/
theorem c10_musician_cascade (db : DB) (aid : Nat) :
    (∀ m : Musician, m ∈ db.musicians → m.author = aid →
        m ∉ (db.deleteAuthor aid).musicians) ∧
    (∀ m : Musician, m ∈ db.musicians → m.author ≠ aid →
        m ∈ (db.deleteAuthor aid).musicians) ∧
    ((db.deleteAuthor aid).songs).length = db.songs.length := by
  refine ⟨?_, ?_, by simp [DB.deleteAuthor]⟩
  · intro m hm h
    simp [DB.deleteAuthor, List.mem_filter, h]
  · intro m hm h
    simp [DB.deleteAuthor, List.mem_filter, hm, h]

/-- A musician referencing author 1. -/
def c10Musician : Musician :=
  { id := 1, name := "n", nationality := "US", instrument := "piano", author := 1 }

/-- A database holding only `c10Musician`. -/
def c10DB : DB := { DB.empty with musicians := [c10Musician] }

/-- Witness for C10: deleting author 1 removes the musician referencing it
and leaves the (empty) songs table with its row count. -/
theorem c10_witness :
    c10Musician ∉ (c10DB.deleteAuthor 1).musicians ∧
    ((c10DB.deleteAuthor 1).songs).length = c10DB.songs.length :=
  ⟨(c10_musician_cascade c10DB 1).1 c10Musician (by decide) rfl,
   (c10_musician_cascade c10DB 1).2.2⟩
